import Mathlib

/-!
Verification of the decay/state core of the digital-decay game.

The Python sources are shallowly embedded below.  Python `float` values are
modelled as exact rationals (`ℚ`): every operation the embedded code performs
(addition, subtraction, multiplication, division by a constant, `min`, `max`,
comparisons, clamping to constants) is exact, and the spec's properties are
about the algorithm (clamping, latching, ordering), not about rounding.
Wall-clock reads (`time.time()`, `pygame.time.get_ticks()`) are replaced by
explicit `delta_time` arguments, which the Python operations also accept.
Rendering, asset loading and `print` calls are dropped; the one-time
"reached zero" print is modelled as an explicit `fired` boolean output.
-/

set_option linter.unusedVariables false

/-- State of `DecayEngine` (decay_engine.py, lines 10-23).  `__init__` sets
`decay_percentage = 100.0`, stores `decay_time` and clears `reached_zero`.
The wall-clock field `last_update` is omitted: all claims call `update` with
an explicit `delta_time`, on which `last_update` has no effect. -/
structure DecayEngine where
  decay_percentage : ℚ
  decay_time : ℚ
  reached_zero : Bool
deriving DecidableEq, Repr

/-- `DecayEngine.__init__` (decay_engine.py, lines 13-23).  It performs no
validation of `decay_time`: construction always succeeds. -/
def DecayEngine.init (decay_time : ℚ) : DecayEngine :=
  { decay_percentage := 100, decay_time := decay_time, reached_zero := false }

/-- The threshold policy shared verbatim by `update` (lines 47-59) and
`modify_decay` (lines 77-88): if the freshly computed percentage is `<= 0.0`
it is set to exactly `0.0` and `reached_zero` is latched `true` (the one-time
print fires only if the flag was previously false, returned here as the
second component); otherwise the percentage is clamped to `min 100.0` and
`reached_zero` is reset to `false`. -/
def DecayEngine.threshold_policy (e : DecayEngine) : DecayEngine × Bool :=
  if e.decay_percentage ≤ 0 then
    ({ e with decay_percentage := 0, reached_zero := true }, !e.reached_zero)
  else
    ({ e with decay_percentage := min 100 e.decay_percentage, reached_zero := false }, false)

/-- `DecayEngine.update` with an explicit `delta_time` (decay_engine.py,
lines 25-62).  `decay_rate = 100.0 / self.decay_time` raises
`ZeroDivisionError` in Python when `decay_time = 0`; that failure is
modelled as `none`. -/
def DecayEngine.update (e : DecayEngine) (delta_time : ℚ) :
    Option (DecayEngine × Bool) :=
  if e.decay_time = 0 then none
  else
    some (DecayEngine.threshold_policy
      { e with decay_percentage :=
          e.decay_percentage - 100 / e.decay_time * delta_time })

/-- `DecayEngine.modify_decay` (decay_engine.py, lines 64-90): add `amount`
to the percentage, then apply the same threshold policy. -/
def DecayEngine.modify_decay (e : DecayEngine) (amount : ℚ) :
    DecayEngine × Bool :=
  DecayEngine.threshold_policy
    { e with decay_percentage := e.decay_percentage + amount }

/-- One call made to the engine: either `update delta_time` or
`modify_decay amount`. -/
inductive EngineOp where
  | update (delta_time : ℚ)
  | modify (amount : ℚ)
deriving DecidableEq, Repr

/-- Perform one engine call; `none` models the `ZeroDivisionError` of
`update` with `decay_time = 0`. -/
def DecayEngine.step (e : DecayEngine) : EngineOp → Option (DecayEngine × Bool)
  | .update dt => e.update dt
  | .modify a => some (e.modify_decay a)

/-- The sequence of post-call engine states produced by a list of calls
(the trace ends early if a call raises). -/
def DecayEngine.run_ops (e : DecayEngine) : List EngineOp → List DecayEngine
  | [] => []
  | op :: ops =>
    match e.step op with
    | none => []
    | some (e', _) => e' :: e'.run_ops ops

/-!
Driver state machine (main.py, lines 151-326).

The `while running` loop of `main` is embedded one iteration ("tick") at a
time.  Display setup, asset loading and `print` calls are dropped.  The
active screen's blocking run loop is abstracted by an oracle `TickInput`:
the value its `run()` returns, the engine percentage at the moment it
returns (screens mutate the shared engine while running), and the boolean
results of `run_end_screen` / `run_start_screen`.  The screens' run loops
only ever return `None` (quit), `"end_screen"` or another screen name
(main_menu.py lines 918-942, games' `run` methods), which `RunResult`
enumerates.
-/

/-- The four values `current_state` takes in main.py ("main_menu",
"game1", "game2", "game3"). -/
inductive Screen where
  | main_menu
  | game1
  | game2
  | game3
deriving DecidableEq, Repr

/-- Values held by `next_state` when it is not `None`: a screen name or the
string "end_screen" (main.py line 239). -/
inductive Target where
  | to_screen (s : Screen)
  | to_end
deriving DecidableEq, Repr

/-- What the active screen's `run()` returned: `None` (quit), the string
"end_screen", or another state-name string. -/
inductive RunResult where
  | quit
  | end_screen
  | goto (s : Screen)
deriving DecidableEq, Repr

/-- Oracle input for one driver tick: the active screen's run result, the
engine percentage when the run returned, and the outcomes of
`run_end_screen` and `run_start_screen` (end_screen.py line 244,
start_screen.py line 242: `True` on confirm/timeout, `False` on ESC). -/
structure TickInput where
  run_result : RunResult
  p_after_run : ℚ
  end_ok : Bool
  start_ok : Bool
deriving DecidableEq, Repr

/-- Driver loop state (main.py lines 151-161 and the shared engine's
percentage, the only engine field the driver reads or writes). -/
structure DriverSt where
  current_state : Screen
  next_state : Option Target
  end_screen_shown : Bool
  restart_flag : Bool
  running : Bool
  p : ℚ
deriving DecidableEq, Repr

/-- What a tick did, for stating temporal properties: whether the
zero-decay branch ran (showing the end screen), whether the restart branch
ran, and whether the active screen's `run()` was invoked. -/
structure TickEvent where
  entered_end : Bool
  restarted : Bool
  ran_screen : Bool
deriving DecidableEq, Repr

/-- Initial driver state (main.py lines 119, 151-161): fresh engine at
100%, state "main_menu", no pending transition, flags clear. -/
def DriverSt.initial : DriverSt :=
  { current_state := .main_menu, next_state := none, end_screen_shown := false,
    restart_flag := false, running := true, p := 100 }

/-- Running the active screen and handling its result (main.py lines
290-319; the result handling is identical for the menu and the games).
The engine percentage first becomes whatever the screen left it at; a
`None` result clears `running`; an `"end_screen"` result sets the engine
percentage to exactly `0.0` and clears `end_screen_shown` (lines 297-300
and 311-314); any other string becomes `next_state`. -/
def run_screen (st : DriverSt) (inp : TickInput) : DriverSt × TickEvent :=
  let st := { st with p := inp.p_after_run }
  match inp.run_result with
  | .quit => ({ st with running := false }, ⟨false, false, true⟩)
  | .end_screen =>
    ({ st with p := 0, end_screen_shown := false }, ⟨false, false, true⟩)
  | .goto s =>
    ({ st with next_state := some (.to_screen s) }, ⟨false, false, true⟩)

/-- One iteration of the `while running` loop (main.py lines 164-326), in
the source's order: the restart branch (lines 168-186), the zero-decay
branch (lines 188-232, which shows the end screen and then the start
screen), the `next_state` transition processing (lines 235-288), and
finally the active screen's run (lines 290-319).  A state with
`running = false` is frozen (the loop has exited). -/
def driver_step (st : DriverSt) (inp : TickInput) : DriverSt × TickEvent :=
  if st.running = false then (st, ⟨false, false, false⟩)
  else if st.restart_flag then
    ({ st with restart_flag := false, current_state := .main_menu, p := 100, end_screen_shown := false },
     ⟨false, true, false⟩)
  else if st.p ≤ 0 ∧ st.end_screen_shown = false then
    let ns := if st.next_state = some .to_end then none else st.next_state
    if inp.end_ok then
      if inp.start_ok then
        ({ st with end_screen_shown := true, next_state := ns, restart_flag := true },
         ⟨true, false, false⟩)
      else
        ({ st with end_screen_shown := true, next_state := ns, running := false },
         ⟨true, false, false⟩)
    else
      ({ st with end_screen_shown := true, next_state := ns, running := false },
       ⟨true, false, false⟩)
  else
    match st.next_state with
    | some .to_end =>
      ({ st with end_screen_shown := true, next_state := none },
       ⟨false, false, false⟩)
    | some (.to_screen s) =>
      run_screen { st with current_state := s, next_state := none } inp
    | none => run_screen st inp

/-- Driver state before tick `n`, given the input stream. -/
def driver_states (inp : ℕ → TickInput) : ℕ → DriverSt
  | 0 => DriverSt.initial
  | n + 1 => (driver_step (driver_states inp n) (inp n)).1

/-- Event produced by tick `n`. -/
def driver_events (inp : ℕ → TickInput) (n : ℕ) : TickEvent :=
  (driver_step (driver_states inp n) (inp n)).2

/-- Driver-loop invariant: `restart_flag` is only ever set inside the
zero-decay branch, which latches `end_screen_shown` at the same time. -/
def driver_inv (st : DriverSt) : Prop :=
  st.restart_flag = true → st.end_screen_shown = true

/-- A concrete input stream: every screen run returns "end_screen" (with
the engine left at 30 before the driver zeroes it), and the end and start
screens are always confirmed. -/
def c4_input : ℕ → TickInput :=
  fun _ => ⟨RunResult.end_screen, 30, true, true⟩

/-!
Game1, the grid block rejuvenation game (games/game1.py).

Per-block randomness (`random.uniform` draws for the initial decay factor
and the decay speed) is passed in explicitly, one pair per block, as the
spec's design notes prescribe for a faithful reimplementation.  A mouse
click is abstracted to the index of the block whose rect it hit (`none` is
a miss); rendering, the loading screen and the decay bar are dropped.
-/

/-- Python `min(5, int(v * 6))` on a clamped decay value (game1.py lines
47 and 100); `int` truncates, which for the non-negative values produced
by the clamps equals the floor. -/
def stage_of (decay_value : ℚ) : ℕ :=
  min 5 (Int.toNat ⌊decay_value * 6⌋)

/-- A grid block (game1.py, class `Block`, lines 20-47): its decay value in
[0,1], its randomized per-block decay speed, and its discrete stage 0-5.
The rect, row/col and click-highlight timing fields are rendering state and
are dropped. -/
structure Game1Block where
  decay_value : ℚ
  decay_speed : ℚ
  current_stage : ℕ
deriving DecidableEq, Repr

/-- `Block.update_decay` (game1.py, lines 78-103): advance the block's own
decay by `decay_speed * delta_time * global_decay_factor * 0.2`, clamp to
[0,1], recompute the stage, and report whether the stage changed. -/
def Game1Block.update_decay (b : Game1Block) (delta_time global_decay_factor : ℚ) :
    Game1Block × Bool :=
  let dv := b.decay_value + b.decay_speed * delta_time * global_decay_factor * (1/5)
  let dv := max 0 (min 1 dv)
  let stage := stage_of dv
  (⟨dv, b.decay_speed, stage⟩, decide (stage ≠ b.current_stage))

/-- Game1 state (game1.py, class `Game1`): the shared engine, the grid
blocks, the 2-second sync timer and the click counter. -/
structure Game1 where
  engine : DecayEngine
  blocks : List Game1Block
  update_timer : ℚ
  click_count : ℕ
deriving DecidableEq, Repr

/-- `Game1.__init__` (game1.py, lines 138-253): read the engine's current
percentage, convert it to an initial decay value `1 - p/100`, and build the
7x13 grid giving each block `initial_decay` scaled by its random factor
(clamped to [0,1]) and its random speed.  `rands` carries one
(factor, speed) pair per block.  The engine itself is not touched: the
constructor performs no `modify_decay` and no reconciliation. -/
def Game1.init (engine : DecayEngine) (rands : List (ℚ × ℚ)) : Game1 :=
  let initial_decay := 1 - engine.decay_percentage / 100
  { engine := engine,
    blocks := rands.map fun r =>
      let d := max 0 (min 1 (initial_decay * r.1))
      ⟨d, r.2, stage_of d⟩,
    update_timer := 0,
    click_count := 0 }

/-- `Game1.calculate_grid_decay` (game1.py, lines 292-308): the grid's
aggregate health percentage `(1 - mean decay) * 100`, with an explicit
guard returning `0.0` for an empty grid. -/
def Game1.calculate_grid_decay (blocks : List Game1Block) : ℚ :=
  if blocks = [] then 0
  else (1 - (blocks.map Game1Block.decay_value).sum / blocks.length) * 100

/-- `Game1.sync_decay_with_grid` (game1.py, lines 342-357): if the grid
aggregate differs from the engine percentage by more than `1.0`, apply
5% of the difference through `modify_decay`; otherwise do nothing. -/
def Game1.sync_decay_with_grid (g : Game1) : Game1 :=
  let grid := Game1.calculate_grid_decay g.blocks
  let current := g.engine.decay_percentage
  if 1 < |grid - current| then
    { g with engine := (g.engine.modify_decay ((grid - current) * (1/20))).1 }
  else g

/-- `Game1.handle_click` (game1.py, lines 310-340) on the block at index
`i`: bump the click counter, rejuvenate the block (decay and stage reset to
0, returning the removed decay), and credit the engine with
`removed * (1/len) * 100 * 1.5`.  `none` is a click that hit no block. -/
def Game1.handle_click (g : Game1) (i : ℕ) : Option Game1 :=
  match g.blocks.get? i with
  | none => none
  | some b =>
    let change := b.decay_value * (1 / (g.blocks.length : ℚ)) * 100 * (3/2)
    some { g with
      click_count := g.click_count + 1,
      blocks := g.blocks.set i ⟨0, b.decay_speed, 0⟩,
      engine := (g.engine.modify_decay change).1 }

/-- The operations a mini-game frame performs on the shared engine, in
order: a reconciliation (`sync_decay_with_grid` calling `modify_decay`),
the natural time decay (`DecayEngine.update`), or an interaction delta
(a `modify_decay` from a click or collision). -/
inductive FrameOp where
  | reconcile_op
  | update_op
  | interaction_op
deriving DecidableEq, Repr

/-- `Game1.update` (game1.py, lines 400-452), one frame, returning the new
state and the ordered trace of engine operations it performed.  Source
order: (1) advance the 2-second sync timer and reconcile if it fired
(lines 408-411); (2) natural decay `update(delta_time * 0.5)` (lines
413-416); (3) compute the clamped global decay factor and advance every
block (lines 418-429); (4) reconcile if any block's stage changed (lines
431-433); (5) process events - each click on a block applies its direct
`modify_decay` credit (lines 435-450).  ESC/back events (which return
early) are outside the claims and not modelled. -/
def Game1.update (g : Game1) (delta_time : ℚ) (clicks : List ℕ) :
    Option (Game1 × List FrameOp) :=
  let t := g.update_timer + delta_time
  let timer_fired : Bool := decide (2 ≤ t)
  let g1 := if timer_fired then Game1.sync_decay_with_grid { g with update_timer := 0 }
            else { g with update_timer := t }
  match g1.engine.update (delta_time * (1/2)) with
  | none => none
  | some (e1, _) =>
    let gdf := max (1/10) (min (3/2) (1 - e1.decay_percentage / 100))
    let bu := g1.blocks.map fun b => b.update_decay delta_time gdf
    let stages_changed := bu.any Prod.snd
    let g2 := { g1 with engine := e1, blocks := bu.map Prod.fst }
    let g3 := if stages_changed then Game1.sync_decay_with_grid g2 else g2
    let g4 := clicks.foldl (fun acc i => ((Game1.handle_click acc i).getD acc)) g3
    let hits := clicks.countP fun i => decide (i < g3.blocks.length)
    some (g4,
      (if timer_fired then [FrameOp.reconcile_op] else []) ++
        FrameOp.update_op ::
          ((if stages_changed then [FrameOp.reconcile_op] else []) ++
            List.replicate hits FrameOp.interaction_op))

/-- Iterated reconciliation: `sync_decay_with_grid` applied `n` times with
no other mutation in between (the setting of the spec's convergence
property). -/
def Game1.sync_iter (g : Game1) : ℕ → Game1
  | 0 => g
  | n + 1 => Game1.sync_iter (Game1.sync_decay_with_grid g) n

/-!
Game2, the bounce game (games/game2.py).  Randomness (spawned block
geometry, fall speed and decay factor) is passed in explicitly; rendering
and the decay bar are dropped.
-/

/-- The paddle (game2.py, lines 20-53). -/
structure Game2Paddle where
  x : ℚ
  y : ℚ
  width : ℚ
  height : ℚ
  speed : ℚ
deriving DecidableEq, Repr

/-- `Paddle.__init__` (game2.py, lines 23-36). -/
def Game2Paddle.init (screen_width screen_height : ℚ) : Game2Paddle :=
  { width := 100, height := 20, x := (screen_width - 100) / 2,
    y := screen_height - 20 - 60, speed := 800 }

/-- `Paddle.update` (game2.py, lines 38-53): move by `speed * delta_time`
for each held arrow key, then clamp to the screen. -/
def Game2Paddle.update (p : Game2Paddle) (delta_time : ℚ) (left right : Bool)
    (screen_width : ℚ) : Game2Paddle :=
  let x := if left then p.x - p.speed * delta_time else p.x
  let x := if right then x + p.speed * delta_time else x
  { p with x := max 0 (min (screen_width - p.width) x) }

/-- A falling block (game2.py, class `Block`, lines 87-114; the grid
row/col used only for colors is dropped). -/
structure Game2Block where
  x : ℚ
  y : ℚ
  width : ℚ
  height : ℚ
  velocity_y : ℚ
  decay_level : ℚ
deriving DecidableEq, Repr

/-- `Block.update` (game2.py, lines 116-135): fall by `velocity_y *
delta_time`, bounce off the top with damping -0.9, and report whether the
block is still on screen (the source compares `y` against `screen_width`,
kept as written). -/
def Game2Block.update (b : Game2Block) (delta_time screen_width : ℚ) :
    Game2Block × Bool :=
  let y := b.y + b.velocity_y * delta_time
  let b' := if y < 0 then { b with velocity_y := b.velocity_y * (-(9/10)), y := 0 }
            else { b with y := y }
  (b', decide (b'.y < screen_width))

/-- `Block.check_collision` (game2.py, lines 137-151): axis-aligned
rectangle overlap with the paddle. -/
def Game2Block.check_collision (b : Game2Block) (p : Game2Paddle) : Bool :=
  decide (b.x < p.x + p.width) && decide (p.x < b.x + b.width) &&
    decide (b.y < p.y + p.height) && decide (p.y < b.y + b.height)

/-- `Block.handle_collision` (game2.py, lines 153-170): reverse and
strengthen the vertical velocity (* -1.2), heal the block by 0.2 (floored
at 0), and return twice the healed amount as the global decay credit. -/
def Game2Block.handle_collision (b : Game2Block) : Game2Block × ℚ :=
  let old := b.decay_level
  let dl := max 0 (b.decay_level - 1/5)
  ({ b with velocity_y := b.velocity_y * (-(6/5)), decay_level := dl },
   (old - dl) * 2)

/-- The random draws `Game2.spawn_block` makes (game2.py, lines 276-286):
block width, height, x position, fall speed, and the uniform(0.5, 1.0)
decay factor. -/
structure SpawnRands where
  w : ℚ
  h : ℚ
  x : ℚ
  vy : ℚ
  fac : ℚ
deriving DecidableEq, Repr

/-- Game2 state (game2.py, class `Game2`). -/
structure Game2 where
  engine : DecayEngine
  paddle : Game2Paddle
  blocks : List Game2Block
  spawn_timer : ℚ
  screen_width : ℚ
  screen_height : ℚ
deriving DecidableEq, Repr

/-- `Game2.spawn_block` (game2.py, lines 276-286): a new block at the top
whose decay level is `(1 - p/100)` scaled by the random factor. -/
def Game2.spawn_block (g : Game2) (r : SpawnRands) : Game2 :=
  let global_decay := 1 - g.engine.decay_percentage / 100
  { g with blocks := g.blocks ++
      [{ x := r.x, y := 0, width := r.w, height := r.h, velocity_y := r.vy,
         decay_level := global_decay * r.fac }] }

/-- `Game2.update_blocks` (game2.py, lines 288-328): update the paddle,
advance every block (dropping the ones that fell off), apply collisions
against the already-moved paddle accumulating the total decay credit, then
run the 2-second spawn timer.  Returns the new state and the total. -/
def Game2.update_blocks (g : Game2) (delta_time : ℚ) (left right : Bool)
    (r : SpawnRands) : Game2 × ℚ :=
  let paddle := g.paddle.update delta_time left right g.screen_width
  let step := g.blocks.foldl
    (fun (acc : List Game2Block × ℚ) b =>
      let (b1, alive) := b.update delta_time g.screen_width
      if alive = false then acc
      else if b1.check_collision paddle then
        let (b2, change) := b1.handle_collision
        (acc.1 ++ [b2], acc.2 + change)
      else (acc.1 ++ [b1], acc.2))
    ([], 0)
  let spawn_timer := g.spawn_timer + delta_time
  let g1 := { g with paddle := paddle, blocks := step.1, spawn_timer := spawn_timer }
  let g2 := if 2 ≤ spawn_timer then
              Game2.spawn_block { g1 with spawn_timer := 0 } r
            else g1
  (g2, step.2)

/-- `Game2.update` (game2.py, lines 347-375), one frame with its engine
operation trace: natural decay first (line 355), then the frame's
accumulated collision credit `modify_decay(change * 10)` (lines 357-359,
applied unconditionally).  Game2 has no reconciliation step. -/
def Game2.update (g : Game2) (delta_time : ℚ) (left right : Bool)
    (r : SpawnRands) : Option (Game2 × List FrameOp) :=
  match g.engine.update delta_time with
  | none => none
  | some (e1, _) =>
    let (g1, change) := Game2.update_blocks { g with engine := e1 }
      delta_time left right r
    some ({ g1 with engine := (g1.engine.modify_decay (change * 10)).1 },
      [FrameOp.update_op, FrameOp.interaction_op])

/-!
Game3, the keyboard Simon Says game (games/game3.py).

Only the sequence/session state the claims are about is modelled: the
state enum, the sequence, the expected and pressed key lists, level, score
and the timeout latch.  Wall-clock timing fields (`last_key_time`,
`result_display_time`), the result message strings, key lighting and the
dissolve animation are rendering/timing concerns and are dropped.  The
randomly generated sequence is passed in explicitly.
-/

/-- The Game3 state enum (game3.py, lines 363-366). -/
inductive G3State where
  | showing_sequence
  | waiting_for_player
  | showing_result
deriving DecidableEq, Repr

/-- A key press as `handle_key_press` distinguishes them: one of the four
Simon keys W/A/S/D, the SPACE completion key, or any other key.  (ESC is
consumed earlier, in `Game3.update`.) -/
inductive G3Key where
  | w
  | a
  | s
  | d
  | space
  | other
deriving DecidableEq, Repr

/-- `self.key_map` (game3.py, lines 352-361): the four Simon keys map to
indices 0-3 in creation order W, A, S, D; other key codes are absent. -/
def key_map : G3Key → Option ℕ
  | .w => some 0
  | .a => some 1
  | .s => some 2
  | .d => some 3
  | _ => none

/-- `self.correct_decay_bonus` (game3.py, line 390). -/
def correct_decay_bonus : ℚ := 5

/-- `self.wrong_decay_penalty` (game3.py, line 391). -/
def wrong_decay_penalty : ℚ := -2

/-- Game3 session state (game3.py, lines 373-397).  `sequence` holds the
(key index, should_press) pairs of `SequenceItem`. -/
structure Game3 where
  state : G3State
  sequence : List (ℕ × Bool)
  player_keys : List ℕ
  expected_player_keys : List ℕ
  sequence_index : ℕ
  level : ℕ
  score : ℕ
  is_timeout_active : Bool
deriving DecidableEq, Repr

/-- The element-by-element comparison loops of `check_player_completion`
(game3.py, lines 583-586 and 605-608): every pressed key must equal the
expected key at the same index (indices beyond `expected` are never probed
by the source on the paths that run the loop). -/
def keys_match : List ℕ → List ℕ → Bool
  | [], _ => true
  | _ :: _, [] => true
  | p :: ps, e :: es => (p == e) && keys_match ps es

/-- `Game3.check_player_completion` (game3.py, lines 557-624): grade the
player's input against the expected keys and transition to ShowingResult,
returning the decay adjustment.  The final `return 0.0` fallthrough
(player pressed more keys than expected - unreachable while the length
invariant holds) leaves the state unchanged, as in the source. -/
def Game3.check_player_completion (g : Game3) : Game3 × ℚ :=
  if g.expected_player_keys = [] then
    if g.player_keys = [] then
      ({ g with state := .showing_result }, correct_decay_bonus)
    else
      ({ g with state := .showing_result }, wrong_decay_penalty)
  else if g.player_keys.length < g.expected_player_keys.length then
    if keys_match g.player_keys g.expected_player_keys then
      ({ g with state := .showing_result }, wrong_decay_penalty / 2)
    else
      ({ g with state := .showing_result }, wrong_decay_penalty)
  else if g.player_keys.length = g.expected_player_keys.length then
    if keys_match g.player_keys g.expected_player_keys then
      ({ g with score := g.score + g.expected_player_keys.length * 10, state := .showing_result }, correct_decay_bonus)
    else
      ({ g with state := .showing_result }, wrong_decay_penalty)
  else (g, 0)

/-- `Game3.handle_key_press` (game3.py, lines 626-702), in source order:
ignore presses outside WaitingForPlayer; SPACE grades the input; a
non-Simon key is ignored; a Simon key is appended to `player_keys` (and
arms the input timeout), then: empty expected list is an immediate wrong
answer; more presses than expected is an immediate wrong answer; a
mismatched key is a wrong answer; completing the sequence scores it; and
a correct-so-far key earns the small 1.0 bonus. -/
def Game3.handle_key_press (g : Game3) (k : G3Key) : Game3 × ℚ :=
  if g.state ≠ G3State.waiting_for_player then (g, 0)
  else if k = .space then g.check_player_completion
  else
    match key_map k with
    | none => (g, 0)
    | some key_idx =>
      let player' := g.player_keys ++ [key_idx]
      let g1 := { g with player_keys := player', is_timeout_active := true }
      if g1.expected_player_keys = [] then
        ({ g1 with state := .showing_result }, wrong_decay_penalty)
      else if g1.expected_player_keys.length < player'.length then
        ({ g1 with state := .showing_result }, wrong_decay_penalty)
      else if key_idx ≠ g1.expected_player_keys.getD (player'.length - 1) 0 then
        ({ g1 with state := .showing_result }, wrong_decay_penalty)
      else if player'.length = g1.expected_player_keys.length then
        ({ g1 with score := g1.score + g1.expected_player_keys.length * 10, state := .showing_result }, correct_decay_bonus)
      else (g1, 1)

/-- `Game3.start_new_level` (game3.py, lines 426-481): install the
generated sequence (passed in as the list of (key index, should_press)
draws), collect the "Computer says" items as the expected keys, append one
mandatory item (`extra`) if none were drawn, clear the player's input and
show the sequence. -/
def Game3.start_new_level (g : Game3) (is_reset : Bool)
    (seq : List (ℕ × Bool)) (extra : ℕ) : Game3 :=
  let g := if is_reset then { g with level := 1, score := 0 } else g
  let expected := (seq.filter fun it => it.2).map fun it => it.1
  let pair := if expected = [] then (seq ++ [(extra, true)], [extra])
              else (seq, expected)
  { g with sequence := pair.1, expected_player_keys := pair.2, player_keys := [], sequence_index := 0, state := .showing_sequence }

/-!
Formalizations of spec sentences, for comparison against the embedded
code.  Each follows the spec's words, not the source.
-/

/-- The spec's edge-trigger sentence as stated: along any call sequence on
a fresh engine, `reached_zero` "is never true for two consecutive samples
without an intervening positive sample" - if the flag is observed true at
two consecutive post-call samples, some sample between the two observations
(inclusive) must have had a positive percentage. -/
def claimed_no_consecutive_flag : Prop :=
  ∀ (t : ℚ) (ops : List EngineOp) (i : ℕ),
    i + 1 < ((DecayEngine.init t).run_ops ops).length →
    (((DecayEngine.init t).run_ops ops).getD i (DecayEngine.init t)).reached_zero = true →
    (((DecayEngine.init t).run_ops ops).getD (i + 1) (DecayEngine.init t)).reached_zero = true →
    ∃ m, i ≤ m ∧ m ≤ i + 1 ∧
      0 < (((DecayEngine.init t).run_ops ops).getD m (DecayEngine.init t)).decay_percentage

/-- Modelled from the spec: "(c) once, forced (`force=true`, bypassing the
threshold check), at mini-game initialization to seed the global bar from
the freshly-created local state" - construction followed by one forced
damped reconciliation (`modifyDecay(difference * dampingFactor)` with the
threshold check bypassed). -/
def claimed_seeded_init (engine : DecayEngine) (rands : List (ℚ × ℚ)) : Game1 :=
  let g := Game1.init engine rands
  let difference := Game1.calculate_grid_decay g.blocks - g.engine.decay_percentage
  { g with engine := (g.engine.modify_decay (difference * (1/20))).1 }

/-- The spec's frame-ordering sentence as stated, on a frame's engine
operation trace: the natural time-decay update precedes every interaction
delta, and every reconciliation comes after the update and after every
interaction delta. -/
def claimed_frame_order (tr : List FrameOp) : Prop :=
  ∀ i j : Fin tr.length,
    (tr.get i = FrameOp.update_op → tr.get j = FrameOp.interaction_op →
      (i : ℕ) < (j : ℕ)) ∧
    ((tr.get i = FrameOp.update_op ∨ tr.get i = FrameOp.interaction_op) →
      tr.get j = FrameOp.reconcile_op → (i : ℕ) < (j : ℕ))

/-- Modelled from the spec: "invalid `decayTimeSeconds` (<=0) is a
programming error and should fail fast (precondition violation)" -
construction that fails for non-positive decay time. -/
def DecayEngine.init_checked (decay_time : ℚ) : Option DecayEngine :=
  if decay_time ≤ 0 then none else some (DecayEngine.init decay_time)

/-!
Helper lemmas about the threshold policy, shared by several claims.
-/

theorem threshold_policy_bounds (e : DecayEngine) :
    0 ≤ e.threshold_policy.1.decay_percentage ∧
      e.threshold_policy.1.decay_percentage ≤ 100 := by
  unfold DecayEngine.threshold_policy
  split
  · simp
  · rename_i h
    push_neg at h
    simp only
    exact ⟨le_min (by norm_num) h.le, min_le_left _ _⟩

theorem threshold_policy_flag (e : DecayEngine) :
    (e.threshold_policy.1.reached_zero = true ↔
      e.threshold_policy.1.decay_percentage = 0) ∧
    (e.threshold_policy.1.reached_zero = false ↔
      0 < e.threshold_policy.1.decay_percentage) ∧
    (e.threshold_policy.2 = true ↔
      e.threshold_policy.1.decay_percentage = 0 ∧ e.reached_zero = false) := by
  unfold DecayEngine.threshold_policy
  split
  · rename_i h
    simp [Bool.not_eq_true']
  · rename_i h
    push_neg at h
    have hmin : (0:ℚ) < min 100 e.decay_percentage := lt_min (by norm_num) h
    simp [hmin.ne', hmin]

theorem threshold_policy_eq_zero (e : DecayEngine)
    (h : e.decay_percentage ≤ 0) :
    e.threshold_policy.1.decay_percentage = 0 := by
  unfold DecayEngine.threshold_policy
  rw [if_pos h]

theorem threshold_policy_clamp (e : DecayEngine)
    (h : 100 < e.decay_percentage) :
    e.threshold_policy.1.decay_percentage = 100 := by
  unfold DecayEngine.threshold_policy
  rw [if_neg (by linarith)]
  exact min_eq_left h.le

theorem step_bounds (e : DecayEngine) (op : EngineOp) (out : DecayEngine × Bool)
    (h : e.step op = some out) :
    0 ≤ out.1.decay_percentage ∧ out.1.decay_percentage ≤ 100 := by
  cases op with
  | update dt =>
    by_cases ht : e.decay_time = 0
    · simp [DecayEngine.step, DecayEngine.update, ht] at h
    · simp only [DecayEngine.step, DecayEngine.update, ht, if_false,
        Option.some_inj] at h
      rw [← h]
      exact threshold_policy_bounds _
  | modify a =>
    simp only [DecayEngine.step, DecayEngine.modify_decay,
      Option.some_inj] at h
    rw [← h]
    exact threshold_policy_bounds _

theorem step_as_policy (e : DecayEngine) (op : EngineOp) (out : DecayEngine × Bool)
    (h : e.step op = some out) :
    ∃ e' : DecayEngine, e'.threshold_policy = out ∧
      e'.reached_zero = e.reached_zero := by
  cases op with
  | update dt =>
    by_cases ht : e.decay_time = 0
    · simp [DecayEngine.step, DecayEngine.update, ht] at h
    · simp only [DecayEngine.step, DecayEngine.update, ht, if_false,
        Option.some_inj] at h
      exact ⟨_, h, rfl⟩
  | modify a =>
    simp only [DecayEngine.step, DecayEngine.modify_decay,
      Option.some_inj] at h
    exact ⟨_, h, rfl⟩

theorem run_ops_bounds (e : DecayEngine) (ops : List EngineOp) :
    ∀ e' ∈ e.run_ops ops,
      0 ≤ e'.decay_percentage ∧ e'.decay_percentage ≤ 100 := by
  induction ops generalizing e with
  | nil => simp [DecayEngine.run_ops]
  | cons op ops ih =>
    intro e' h
    rw [DecayEngine.run_ops] at h
    cases hs : e.step op with
    | none => rw [hs] at h; simp at h
    | some out =>
      rw [hs] at h
      rcases List.mem_cons.mp h with h | h
      · subst h
        exact step_bounds e op out hs
      · exact ih out.1 e' h

/-- C2: for every sequence of `update`/`modify_decay` calls on a freshly
constructed `DecayEngine`, with any `delta_time` and any signed `amount`,
`0.0 <= decay_percentage <= 100.0` holds after every call; a value driven
to or below zero is set to exactly `0.0`, and a value above 100 is clamped
to `100.0`. -/
theorem c2_percentage_bounds :
    (∀ (t : ℚ) (ops : List EngineOp),
      ∀ e' ∈ (DecayEngine.init t).run_ops ops,
        0 ≤ e'.decay_percentage ∧ e'.decay_percentage ≤ 100) ∧
    (∀ (e : DecayEngine) (a : ℚ),
      (e.decay_percentage + a ≤ 0 → (e.modify_decay a).1.decay_percentage = 0) ∧
      (100 < e.decay_percentage + a → (e.modify_decay a).1.decay_percentage = 100)) ∧
    (∀ (e : DecayEngine) (dt : ℚ) (out : DecayEngine × Bool),
      e.update dt = some out →
      (e.decay_percentage - 100 / e.decay_time * dt ≤ 0 →
        out.1.decay_percentage = 0) ∧
      (100 < e.decay_percentage - 100 / e.decay_time * dt →
        out.1.decay_percentage = 100)) := by
  refine ⟨fun t ops => run_ops_bounds _ ops,
    fun e a => ⟨fun hle => ?_, fun hgt => ?_⟩, fun e dt out h => ?_⟩
  · exact threshold_policy_eq_zero
      { e with decay_percentage := e.decay_percentage + a } hle
  · exact threshold_policy_clamp
      { e with decay_percentage := e.decay_percentage + a } hgt
  · by_cases ht : e.decay_time = 0
    · simp [DecayEngine.update, ht] at h
    · simp only [DecayEngine.update, ht, if_false, Option.some_inj] at h
      rw [← h]
      exact ⟨fun hle => threshold_policy_eq_zero _ hle,
        fun hgt => threshold_policy_clamp _ hgt⟩

/-- Witness for C2 at a concrete input: a fresh engine with
`decay_time = 10` after `update(5.0)` sits at 50, within bounds. -/
theorem c2_witness :
    0 ≤ (⟨50, 10, false⟩ : DecayEngine).decay_percentage ∧
      (⟨50, 10, false⟩ : DecayEngine).decay_percentage ≤ 100 :=
  c2_percentage_bounds.1 10 [EngineOp.update 5] ⟨50, 10, false⟩ (by
    norm_num [DecayEngine.run_ops, DecayEngine.step, DecayEngine.init,
      DecayEngine.update, DecayEngine.threshold_policy])

/-- C3: the spec's concrete scenarios.  With `decay_time = 10`,
`update(5.0)` gives exactly 50, and a further `update(10.0)` gives exactly
0 with `reached_zero` latched and the one-time signal fired.  At
percentage 2.0, `modify_decay(-5.0)` gives exactly 0 with the signal fired
(first time); `modify_decay(10.0)` from that state gives exactly 10 with
the flag cleared; and `modify_decay(-1000)` while already at zero leaves
the state fixed at exactly 0 without re-firing the signal - repeating it
repeats the identical computation. -/
theorem c3_scenarios :
    (DecayEngine.init 10).update 5 = some (⟨50, 10, false⟩, false) ∧
    (⟨50, 10, false⟩ : DecayEngine).update 10 = some (⟨0, 10, true⟩, true) ∧
    (⟨2, 120, false⟩ : DecayEngine).modify_decay (-5) = (⟨0, 120, true⟩, true) ∧
    (⟨0, 120, true⟩ : DecayEngine).modify_decay 10 = (⟨10, 120, false⟩, false) ∧
    (⟨0, 120, true⟩ : DecayEngine).modify_decay (-1000) = (⟨0, 120, true⟩, false) := by
  norm_num [DecayEngine.init, DecayEngine.update, DecayEngine.modify_decay,
    DecayEngine.threshold_policy]

/-- C10: after every `update` or `modify_decay` call that returns (from any
pre-state, hence in particular along any reachable sequence), the latched
flag is extensionally the level test: `reached_zero` is true exactly when
`decay_percentage` is exactly 0. -/
theorem c10_flag_iff_zero (e : DecayEngine) (op : EngineOp)
    (out : DecayEngine × Bool) (h : e.step op = some out) :
    out.1.reached_zero = true ↔ out.1.decay_percentage = 0 := by
  obtain ⟨e', hp, _⟩ := step_as_policy e op out h
  rw [← hp]
  exact (threshold_policy_flag e').1

/-- Witness for C10 at a concrete input: `modify_decay(-100)` from a fresh
engine lands at exactly 0 with the flag set. -/
theorem c10_witness :
    ((DecayEngine.init 120).modify_decay (-100)).1.reached_zero = true ↔
      ((DecayEngine.init 120).modify_decay (-100)).1.decay_percentage = 0 :=
  c10_flag_iff_zero (DecayEngine.init 120) (EngineOp.modify (-100)) _ rfl

/-- C1 counterexample: the claim that `reached_zero` "is never true for two
consecutive samples without an intervening positive sample" is false for
the code.  From a fresh engine, `modify_decay(-100)` then
`modify_decay(-1)` yields the flag true at both consecutive samples while
the percentage sits at 0 throughout. -/
theorem c1_counterexample : ¬ claimed_no_consecutive_flag := by
  intro h
  obtain ⟨m, hm0, hm1, hpos⟩ :=
    h 120 [EngineOp.modify (-100), EngineOp.modify (-1)] 0
      (by norm_num [DecayEngine.run_ops, DecayEngine.step, DecayEngine.init,
        DecayEngine.modify_decay, DecayEngine.threshold_policy])
      (by norm_num [DecayEngine.run_ops, DecayEngine.step, DecayEngine.init,
        DecayEngine.modify_decay, DecayEngine.threshold_policy])
      (by norm_num [DecayEngine.run_ops, DecayEngine.step, DecayEngine.init,
        DecayEngine.modify_decay, DecayEngine.threshold_policy])
  interval_cases m <;>
    norm_num [DecayEngine.run_ops, DecayEngine.step, DecayEngine.init,
      DecayEngine.modify_decay, DecayEngine.threshold_policy] at hpos

/-- C1 amended: after every call that returns, (a) the one-time signal
fires exactly when this call moved the percentage to exactly 0 while the
flag was previously false - i.e. exactly once per crossing, never again
while the engine stays at 0 - and (b) the flag is reset to false exactly
when the post-call percentage is positive.  The flag itself (unlike the
signal) remains latched true across consecutive samples while the
percentage stays at 0. -/
theorem c1_reached_zero_edge_amended (e : DecayEngine) (op : EngineOp)
    (out : DecayEngine × Bool) (h : e.step op = some out) :
    (out.2 = true ↔ out.1.decay_percentage = 0 ∧ e.reached_zero = false) ∧
    (out.1.reached_zero = false ↔ 0 < out.1.decay_percentage) := by
  obtain ⟨e', hp, hrz⟩ := step_as_policy e op out h
  rw [← hp]
  exact ⟨(threshold_policy_flag e').2.2.trans (by rw [hrz]),
    (threshold_policy_flag e').2.1⟩

/-- Witness for C1's amended theorem: the crossing `modify_decay(-100)`
from a fresh engine fires the signal (flag was false, percentage hit 0). -/
theorem c1_witness :
    (((DecayEngine.init 120).modify_decay (-100)).2 = true ↔
      ((DecayEngine.init 120).modify_decay (-100)).1.decay_percentage = 0 ∧
        (DecayEngine.init 120).reached_zero = false) ∧
    (((DecayEngine.init 120).modify_decay (-100)).1.reached_zero = false ↔
      0 < ((DecayEngine.init 120).modify_decay (-100)).1.decay_percentage) :=
  c1_reached_zero_edge_amended (DecayEngine.init 120)
    (EngineOp.modify (-100)) _ rfl

/-- C8 counterexample: constructing a `DecayEngine` with `decay_time = 0`
does not fail fast - it succeeds and produces an ordinary engine (unlike
the spec-modelled checked constructor), and the failure (`ZeroDivisionError`)
only surfaces at the first `update` call.  Likewise, a Game1 tracker built
over an empty sub-unit collection constructs fine, and its aggregate is
guarded to `0.0` instead of failing. -/
theorem c8_counterexample :
    DecayEngine.init_checked 0 = none ∧
    DecayEngine.init 0 = ⟨100, 0, false⟩ ∧
    (DecayEngine.init 0).update 1 = none ∧
    (Game1.init (DecayEngine.init 120) []).blocks = [] ∧
    Game1.calculate_grid_decay [] = 0 := by
  norm_num [DecayEngine.init_checked, DecayEngine.init, DecayEngine.update,
    Game1.init, Game1.calculate_grid_decay]

/-- C8 amended: construction performs no validation and always succeeds
for any `decay_time`; with `decay_time = 0` the division-by-zero failure
occurs at the first `update` call (not at construction); with a negative
`decay_time` later updates do not fail or produce out-of-range values -
the percentage silently rises and is clamped at 100.  Game1's aggregate
guards the empty collection with an explicit `0.0` instead of failing. -/
theorem c8_fail_fast_amended (t dt : ℚ) :
    DecayEngine.init t = ⟨100, t, false⟩ ∧
    (DecayEngine.init 0).update dt = none ∧
    (t < 0 → 0 ≤ dt →
      (DecayEngine.init t).update dt = some (⟨100, t, false⟩, false)) := by
  refine ⟨rfl, by norm_num [DecayEngine.init, DecayEngine.update], ?_⟩
  intro ht hdt
  have ht0 : t ≠ 0 := ht.ne
  have h1 : (100 : ℚ) / t < 0 := div_neg_of_pos_of_neg (by norm_num) ht
  have h2 : 100 / t * dt ≤ 0 := by nlinarith
  have h3 : (100 : ℚ) ≤ 100 - 100 / t * dt := by linarith
  simp only [DecayEngine.init, DecayEngine.update,
    DecayEngine.threshold_policy, ht0, if_false]
  rw [if_neg (by linarith), min_eq_left h3]

/-- Witness for C8's amended theorem at `decay_time = -5`,
`delta_time = 1`: the update succeeds and stays clamped at 100. -/
theorem c8_witness :
    (DecayEngine.init (-5)).update 1 = some (⟨100, -5, false⟩, false) :=
  (c8_fail_fast_amended (-5) 1).2.2 (by norm_num) (by norm_num)

/-- C9: in Game3, starting a level clears the player's input (establishing
`len(player_keys) <= len(expected_player_keys)`); every `handle_key_press`
preserves that invariant whenever it leaves the game in WaitingForPlayer;
and a Simon-key press that would exceed the expected-input length (made
while the pressed keys already number at least the expected ones) is an
immediate failure: wrong-answer penalty and transition out of
WaitingForPlayer into ShowingResult. -/
theorem c9_waiting_invariant :
    (∀ (g : Game3) (r : Bool) (seq : List (ℕ × Bool)) (extra : ℕ),
      (g.start_new_level r seq extra).player_keys = []) ∧
    (∀ (g : Game3) (k : G3Key),
      g.player_keys.length ≤ g.expected_player_keys.length →
      (g.handle_key_press k).1.state = G3State.waiting_for_player →
      (g.handle_key_press k).1.player_keys.length ≤
        (g.handle_key_press k).1.expected_player_keys.length) ∧
    (∀ (g : Game3) (k : G3Key) (i : ℕ),
      g.state = G3State.waiting_for_player →
      key_map k = some i →
      g.expected_player_keys.length ≤ g.player_keys.length →
      (g.handle_key_press k).1.state = G3State.showing_result ∧
      (g.handle_key_press k).2 = wrong_decay_penalty) := by
  refine ⟨fun g r seq extra => by simp [Game3.start_new_level],
    fun g k hlen hpost => ?_, fun g k i h1 hk hge => ?_⟩
  · by_cases h1 : g.state = G3State.waiting_for_player
    · by_cases h2 : k = G3Key.space
      · subst h2
        simp only [Game3.handle_key_press, h1, ne_eq, not_true_eq_false,
          if_false, if_true, Game3.check_player_completion] at hpost ⊢
        split_ifs at hpost ⊢ <;> simp_all
      · cases hk : key_map k with
        | none =>
          simpa only [Game3.handle_key_press, h1, ne_eq, not_true_eq_false,
            if_false, h2, hk] using hlen
        | some key_idx =>
          simp only [Game3.handle_key_press, h1, ne_eq, not_true_eq_false,
            if_false, h2, hk] at hpost ⊢
          split_ifs at hpost ⊢
          rename_i hc1 hc2 hc3 hc4
          show (g.player_keys ++ [key_idx]).length ≤
            g.expected_player_keys.length
          simp only [List.length_append, List.length_cons,
            List.length_nil] at hc2 ⊢
          omega
    · simpa only [Game3.handle_key_press, h1, ne_eq, not_false_eq_true,
        if_true] using hlen
  · have hns : k ≠ G3Key.space := by
      intro h
      subst h
      simp [key_map] at hk
    simp only [Game3.handle_key_press, h1, ne_eq, not_true_eq_false,
      if_false, hns, hk]
    by_cases he : g.expected_player_keys = []
    · simp [he]
    · have hlt : g.expected_player_keys.length < g.player_keys.length + 1 := by
        omega
      simp [he, hlt]

/-!
Driver lemmas for the zero-crossing override (C4).
-/

theorem driver_step_frozen (st : DriverSt) (inp : TickInput)
    (h : st.running = false) :
    driver_step st inp = (st, ⟨false, false, false⟩) := by
  simp [driver_step, h]

theorem driver_inv_step (st : DriverSt) (inp : TickInput)
    (h : driver_inv st) : driver_inv (driver_step st inp).1 := by
  unfold driver_step
  by_cases h1 : st.running = false
  · rw [if_pos h1]
    exact h
  · rw [if_neg h1]
    by_cases h2 : st.restart_flag = true
    · rw [if_pos h2]
      intro hf
      simp at hf
    · rw [if_neg h2]
      have h2' : st.restart_flag = false := by simpa using h2
      by_cases h3 : st.p ≤ 0 ∧ st.end_screen_shown = false
      · rw [if_pos h3]
        split_ifs <;> intro _ <;> rfl
      · rw [if_neg h3]
        rcases hns : st.next_state with _ | tg
        · cases hr : inp.run_result <;> simp [run_screen, driver_inv, h2', hr]
        · cases tg with
          | to_screen s =>
            cases hr : inp.run_result <;>
              simp [run_screen, driver_inv, h2', hr]
          | to_end =>
            simp [driver_inv, h2']

theorem driver_inv_all (inp : ℕ → TickInput) (n : ℕ) :
    driver_inv (driver_states inp n) := by
  induction n with
  | zero => intro h; cases h
  | succ n ih => exact driver_inv_step _ _ ih

theorem driver_states_frozen (inp : ℕ → TickInput) (n m : ℕ)
    (h : (driver_states inp n).running = false) (hnm : n ≤ m) :
    driver_states inp m = driver_states inp n := by
  induction m with
  | zero =>
    cases Nat.le_zero.mp hnm
    rfl
  | succ m ih =>
    by_cases hc : n = m + 1
    · rw [hc]
    · have hm : n ≤ m := by omega
      have heq := ih hm
      show (driver_step (driver_states inp m) (inp m)).1 = _
      rw [heq, driver_step_frozen _ _ h]

theorem driver_step_enters (st : DriverSt) (inp : TickInput)
    (hr : st.running = true) (hf : st.restart_flag = false)
    (hp : st.p ≤ 0) (hs : st.end_screen_shown = false) :
    (driver_step st inp).2.entered_end = true := by
  simp only [driver_step, hr, hf, hp, hs]
  norm_num
  split_ifs <;> rfl

theorem driver_step_entered_elim (st : DriverSt) (inp : TickInput)
    (h : (driver_step st inp).2.entered_end = true) :
    (driver_step st inp).1.end_screen_shown = true ∧
    ((driver_step st inp).1.running = false ∨
      ((driver_step st inp).1.restart_flag = true ∧
        (driver_step st inp).1.running = true)) := by
  unfold driver_step at h ⊢
  by_cases h1 : st.running = false
  · rw [if_pos h1] at h
    cases h
  · rw [if_neg h1] at h ⊢
    have h1' : st.running = true := by
      cases hb : st.running
      · exact absurd hb h1
      · rfl
    by_cases h2 : st.restart_flag = true
    · rw [if_pos h2] at h
      cases h
    · rw [if_neg h2] at h ⊢
      by_cases h3 : st.p ≤ 0 ∧ st.end_screen_shown = false
      · rw [if_pos h3]
        split_ifs <;> simp [h1']
      · rw [if_neg h3] at h ⊢
        rcases hns : st.next_state with _ | tg
        · rw [hns] at h
          cases hr : inp.run_result <;> simp [run_screen, hr] at h
        · cases tg with
          | to_screen s =>
            rw [hns] at h
            cases hr : inp.run_result <;> simp [run_screen, hr] at h
          | to_end =>
            rw [hns] at h
            simp at h

theorem driver_step_restart (st : DriverSt) (inp : TickInput)
    (hr : st.running = true) (hf : st.restart_flag = true) :
    (driver_step st inp).1.p = 100 ∧
    (driver_step st inp).2.restarted = true ∧
    (driver_step st inp).2.entered_end = false := by
  simp [driver_step, hr, hf]

theorem driver_step_ran_end (st : DriverSt) (inp : TickInput)
    (h : (driver_step st inp).2.ran_screen = true)
    (hr : inp.run_result = RunResult.end_screen) :
    (driver_step st inp).1.running = true ∧
    (driver_step st inp).1.p = 0 ∧
    (driver_step st inp).1.end_screen_shown = false := by
  unfold driver_step at h ⊢
  by_cases h1 : st.running = false
  · rw [if_pos h1] at h
    cases h
  · rw [if_neg h1] at h ⊢
    have h1' : st.running = true := by
      cases hb : st.running
      · exact absurd hb h1
      · rfl
    by_cases h2 : st.restart_flag = true
    · rw [if_pos h2] at h
      cases h
    · rw [if_neg h2] at h ⊢
      by_cases h3 : st.p ≤ 0 ∧ st.end_screen_shown = false
      · rw [if_pos h3] at h
        split_ifs at h <;> cases h
      · rw [if_neg h3] at h ⊢
        rcases hns : st.next_state with _ | tg
        · simp [run_screen, hr, h1']
        · cases tg with
          | to_screen s =>
            simp [run_screen, hr, h1']
          | to_end =>
            rw [hns] at h
            simp at h

/-- C4: in the driver loop, (1) whenever `decay_percentage <= 0.0` and the
end screen has not been shown for this crossing, the very next driver tick
runs the end-screen branch regardless of the active screen's run-loop
return value (the run is not even consulted that tick); (2) an explicit
"end_screen" return from a screen is handled equivalently: the driver
zeroes the engine and clears the latch, so the following tick enters the
end screen; (3) the entry is idempotent - between any two end-screen
entries there is a restart tick that replaces the engine with a fresh one
at 100%, so a second entry never happens while the percentage remains at
0. -/
theorem c4_zero_crossing_override (inp : ℕ → TickInput) :
    (∀ n, (driver_states inp n).running = true →
      (driver_states inp n).p ≤ 0 →
      (driver_states inp n).end_screen_shown = false →
      (driver_events inp n).entered_end = true) ∧
    (∀ n, (driver_events inp n).ran_screen = true →
      (inp n).run_result = RunResult.end_screen →
      (driver_events inp (n + 1)).entered_end = true) ∧
    (∀ i j, i < j →
      (driver_events inp i).entered_end = true →
      (driver_events inp j).entered_end = true →
      ∃ k, i < k ∧ k < j ∧ (driver_events inp k).restarted = true ∧
        (driver_states inp (k + 1)).p = 100) := by
  have part1 : ∀ n, (driver_states inp n).running = true →
      (driver_states inp n).p ≤ 0 →
      (driver_states inp n).end_screen_shown = false →
      (driver_events inp n).entered_end = true := by
    intro n hr hp hs
    have hf : (driver_states inp n).restart_flag = false := by
      cases hb : (driver_states inp n).restart_flag
      · rfl
      · have := driver_inv_all inp n hb
        rw [this] at hs
        cases hs
    exact driver_step_enters _ _ hr hf hp hs
  have frozen_no_enter : ∀ n m, (driver_states inp n).running = false →
      n ≤ m → (driver_events inp m).entered_end = false := by
    intro n m hrun hnm
    have hm : driver_states inp m = driver_states inp n :=
      driver_states_frozen inp n m hrun hnm
    show (driver_step (driver_states inp m) (inp m)).2.entered_end = false
    rw [hm, driver_step_frozen _ _ hrun]
  refine ⟨part1, fun n hran hres => ?_, fun i j hij hi hj => ?_⟩
  · obtain ⟨hrun, hp, hs⟩ :=
      driver_step_ran_end (driver_states inp n) (inp n) hran hres
    exact part1 (n + 1) hrun hp.le hs
  · obtain ⟨hshown, hdisj⟩ :=
      driver_step_entered_elim (driver_states inp i) (inp i) hi
    rcases hdisj with hstop | ⟨hrf, hrun⟩
    · have hne := frozen_no_enter (i + 1) j hstop (by omega)
      rw [hj] at hne
      cases hne
    · obtain ⟨hp100, hres, hnoent⟩ :=
        driver_step_restart (driver_states inp (i + 1)) (inp (i + 1)) hrun hrf
      have hlt : i + 1 < j := by
        by_cases hc : i + 1 = j
        · have hne : (driver_events inp (i + 1)).entered_end = false := hnoent
          rw [← hc] at hj
          rw [hj] at hne
          cases hne
        · omega
      exact ⟨i + 1, by omega, hlt, hres, hp100⟩

/-- Witness for C4 on the concrete stream `c4_input`: the screen's
"end_screen" return at tick 0 zeroes the engine, tick 1 enters the end
screen, and between that entry and the next one (tick 4) sits the restart
tick 2, which resets the percentage to 100. -/
theorem c4_witness :
    (driver_events c4_input 1).entered_end = true ∧
    ∃ k, 1 < k ∧ k < 4 ∧ (driver_events c4_input k).restarted = true ∧
      (driver_states c4_input (k + 1)).p = 100 := by
  have h1 : driver_states c4_input 1 =
      ⟨Screen.main_menu, none, false, false, true, 0⟩ := by
    show (driver_step (driver_states c4_input 0) (c4_input 0)).1 = _
    norm_num [driver_states, DriverSt.initial, driver_step, run_screen,
      c4_input]
  have h2 : driver_states c4_input 2 =
      ⟨Screen.main_menu, none, true, true, true, 0⟩ := by
    show (driver_step (driver_states c4_input 1) (c4_input 1)).1 = _
    rw [h1]
    norm_num [driver_step, run_screen, c4_input]
  have h3 : driver_states c4_input 3 =
      ⟨Screen.main_menu, none, false, false, true, 100⟩ := by
    show (driver_step (driver_states c4_input 2) (c4_input 2)).1 = _
    rw [h2]
    norm_num [driver_step, run_screen, c4_input]
  have h4 : driver_states c4_input 4 =
      ⟨Screen.main_menu, none, false, false, true, 0⟩ := by
    show (driver_step (driver_states c4_input 3) (c4_input 3)).1 = _
    rw [h3]
    norm_num [driver_step, run_screen, c4_input]
  have e1 : (driver_events c4_input 1).entered_end = true :=
    (c4_zero_crossing_override c4_input).1 1 (by simp [h1]) (by simp [h1])
      (by simp [h1])
  have e4 : (driver_events c4_input 4).entered_end = true :=
    (c4_zero_crossing_override c4_input).1 4 (by simp [h4]) (by simp [h4])
      (by simp [h4])
  exact ⟨e1, (c4_zero_crossing_override c4_input).2.2 1 4 (by omega) e1 e4⟩

/-- C5 counterexample: no reconciliation - forced or otherwise - runs at
Game1 initialization.  With the engine at 50 and every block drawing the
random factor 1.3 (decay 0.65 each), the grid aggregate is 35, which
differs from the engine by 15 > threshold; yet `Game1.__init__` leaves the
engine percentage at exactly 50, whereas the spec-claimed forced seeding
reconciliation would have moved it to 49.25. -/
theorem c5_counterexample :
    (Game1.init ⟨50, 120, false⟩
      (List.replicate 91 (13/10, 1/20))).engine.decay_percentage = 50 ∧
    Game1.calculate_grid_decay
      (Game1.init ⟨50, 120, false⟩
        (List.replicate 91 (13/10, 1/20))).blocks = 35 ∧
    (1 : ℚ) < |(35 : ℚ) - 50| ∧
    (claimed_seeded_init ⟨50, 120, false⟩
      (List.replicate 91 (13/10, 1/20))).engine.decay_percentage = 197/4 ∧
    (197 : ℚ)/4 ≠ 50 := by
  have hst : stage_of (13/20) = 3 := by
    unfold stage_of
    rw [(by norm_num : (⌊(13:ℚ)/20 * 6⌋ : ℤ) = 3)]
    decide
  have hblocks : (Game1.init ⟨50, 120, false⟩
      (List.replicate 91 (13/10, 1/20))).blocks =
      List.replicate 91 ⟨13/20, 1/20, 3⟩ := by
    simp only [Game1.init, List.map_replicate]
    norm_num [min_def, max_def, hst]
  refine ⟨rfl, ?_, by norm_num, ?_, by norm_num⟩
  · rw [hblocks]
    simp only [Game1.calculate_grid_decay]
    norm_num [List.sum_replicate, List.map_replicate, nsmul_eq_mul]
  · simp only [claimed_seeded_init]
    rw [hblocks]
    norm_num [Game1.init, Game1.calculate_grid_decay, List.sum_replicate,
      List.map_replicate, nsmul_eq_mul, DecayEngine.modify_decay,
      DecayEngine.threshold_policy]

/-- C5 amended: `sync_decay_with_grid` applies
`modify_decay(difference * 0.05)` exactly when the absolute difference
between the grid aggregate and the engine exceeds the threshold `1.0`, and
is the identity otherwise; `Game1.__init__` never touches the engine (the
grid is seeded FROM the engine percentage, not the other way around, and
no forced reconciliation exists); a player click instead applies a direct
`modify_decay` of `removed_decay * (1/blocks) * 100 * 1.5`, not a
reconciliation.  Reconciliation is invoked inside `Game1.update` on the
2-second timer and on block stage changes (see the frame-trace theorem of
the ordering claim). -/
theorem c5_reconciliation_amended :
    (∀ (e : DecayEngine) (rands : List (ℚ × ℚ)),
      (Game1.init e rands).engine = e) ∧
    (∀ g : Game1,
      |Game1.calculate_grid_decay g.blocks - g.engine.decay_percentage| ≤ 1 →
      Game1.sync_decay_with_grid g = g) ∧
    (∀ g : Game1,
      1 < |Game1.calculate_grid_decay g.blocks - g.engine.decay_percentage| →
      (Game1.sync_decay_with_grid g).engine =
        (g.engine.modify_decay
          ((Game1.calculate_grid_decay g.blocks -
            g.engine.decay_percentage) * (1/20))).1) ∧
    (∀ (g : Game1) (i : ℕ) (b : Game1Block), g.blocks.get? i = some b →
      ∃ g', Game1.handle_click g i = some g' ∧
        g'.engine = (g.engine.modify_decay
          (b.decay_value * (1 / (g.blocks.length : ℚ)) * 100 * (3/2))).1) := by
  refine ⟨fun e rands => rfl, fun g h => ?_, fun g h => ?_, fun g i b hb => ?_⟩
  · unfold Game1.sync_decay_with_grid
    rw [if_neg (not_lt.mpr h)]
  · unfold Game1.sync_decay_with_grid
    rw [if_pos h]
  · unfold Game1.handle_click
    rw [hb]
    exact ⟨_, rfl, rfl⟩

/-- Witness for C5's amended theorem: with one block at decay 0.5 the grid
aggregate is 50, equal to the engine's 50, so reconciliation is the
identity. -/
theorem c5_witness :
    Game1.sync_decay_with_grid ⟨⟨50, 120, false⟩, [⟨1/2, 1/20, 3⟩], 0, 0⟩ =
      ⟨⟨50, 120, false⟩, [⟨1/2, 1/20, 3⟩], 0, 0⟩ :=
  c5_reconciliation_amended.2.1 ⟨⟨50, 120, false⟩, [⟨1/2, 1/20, 3⟩], 0, 0⟩
    (by norm_num [Game1.calculate_grid_decay])

/-- C7 counterexample: the claimed "update before deltas, reconciliation
after both" ordering fails in Game1.  In a frame where the 2-second sync
timer fires (state: engine 50, one block at decay 0.9, timer 2.0,
delta 0, no clicks), the frame's engine-operation trace is
[reconcile, update]: the timer reconciliation runs BEFORE the natural
decay update - and it matters, since it moves the engine from 50 to 48
before `update` runs. -/
theorem c7_counterexample :
    Game1.update ⟨⟨50, 120, false⟩, [⟨9/10, 1/20, 5⟩], 2, 0⟩ 0 [] =
      some (⟨⟨48, 120, false⟩, [⟨9/10, 1/20, 5⟩], 0, 0⟩,
        [FrameOp.reconcile_op, FrameOp.update_op]) ∧
    ¬ claimed_frame_order [FrameOp.reconcile_op, FrameOp.update_op] := by
  constructor
  · have hst : stage_of (9/10) = 5 := by
      unfold stage_of
      rw [(by norm_num : (⌊(9:ℚ)/10 * 6⌋ : ℤ) = 5)]
      decide
    simp only [Game1.update, Game1.sync_decay_with_grid,
      Game1.calculate_grid_decay, Game1Block.update_decay]
    norm_num [DecayEngine.update, DecayEngine.modify_decay,
      DecayEngine.threshold_policy, hst, List.foldl, List.countP,
      List.countP.go]
  · intro hcl
    exact absurd ((hcl ⟨1, by norm_num⟩ ⟨0, by norm_num⟩).2
      (Or.inl rfl) rfl) (by decide)

/-- C7 amended: in Game2 the natural decay update always precedes the
frame's (single, unconditional) interaction `modify_decay`, and no
reconciliation exists; in Game1 the frame trace always has the shape
[timer reconciliation?] ++ [update] ++ [stage reconciliation?] ++
[click deltas] - i.e. the timer reconciliation, when the timer fires,
precedes the update, and the stage-change reconciliation precedes the
frame's click deltas instead of following them. -/
theorem c7_ordering_amended :
    (∀ (g : Game2) (dt : ℚ) (l r : Bool) (sr : SpawnRands)
      (out : Game2 × List FrameOp),
      Game2.update g dt l r sr = some out →
      out.2 = [FrameOp.update_op, FrameOp.interaction_op]) ∧
    (∀ (g : Game1) (dt : ℚ) (clicks : List ℕ) (out : Game1 × List FrameOp),
      Game1.update g dt clicks = some out →
      ∃ (t s : Bool) (k : ℕ),
        out.2 = (if t then [FrameOp.reconcile_op] else []) ++
          FrameOp.update_op :: ((if s then [FrameOp.reconcile_op] else []) ++
            List.replicate k FrameOp.interaction_op)) := by
  constructor
  · intro g dt l r sr out h
    simp only [Game2.update] at h
    split at h
    · cases h
    · rw [Option.some_inj] at h
      rw [← h]
  · intro g dt clicks out h
    simp only [Game1.update] at h
    split at h
    · cases h
    · rw [Option.some_inj] at h
      rw [← h]
      exact ⟨_, _, _, rfl⟩

/-- Witness for C7's amended theorem at the concrete frame of the
counterexample: its [reconcile, update] trace matches the shape with the
timer fired, no stage change and no clicks. -/
theorem c7_witness :
    ∃ (t s : Bool) (k : ℕ),
      [FrameOp.reconcile_op, FrameOp.update_op] =
        (if t then [FrameOp.reconcile_op] else []) ++
          FrameOp.update_op :: ((if s then [FrameOp.reconcile_op] else []) ++
            List.replicate k FrameOp.interaction_op) := by
  have hst : stage_of (9/10) = 5 := by
    unfold stage_of
    rw [(by norm_num : (⌊(9:ℚ)/10 * 6⌋ : ℤ) = 5)]
    decide
  exact c7_ordering_amended.2 ⟨⟨50, 120, false⟩, [⟨9/10, 1/20, 5⟩], 2, 0⟩ 0 []
    (⟨⟨48, 120, false⟩, [⟨9/10, 1/20, 5⟩], 0, 0⟩,
      [FrameOp.reconcile_op, FrameOp.update_op])
    (by
      simp only [Game1.update, Game1.sync_decay_with_grid,
        Game1.calculate_grid_decay, Game1Block.update_decay]
      norm_num [DecayEngine.update, DecayEngine.modify_decay,
        DecayEngine.threshold_policy, hst, List.foldl, List.countP,
        List.countP.go])

/-!
Helper lemmas for the reconciliation convergence claim (C6).
-/

theorem threshold_policy_keep (e : DecayEngine)
    (h0 : ¬ e.decay_percentage ≤ 0) (h1 : e.decay_percentage ≤ 100) :
    e.threshold_policy.1.decay_percentage = e.decay_percentage := by
  unfold DecayEngine.threshold_policy
  rw [if_neg h0]
  exact min_eq_right h1

theorem modify_decay_eq (e : DecayEngine) (a : ℚ)
    (h0 : ¬ e.decay_percentage + a ≤ 0) (h1 : e.decay_percentage + a ≤ 100) :
    (e.modify_decay a).1.decay_percentage = e.decay_percentage + a := by
  unfold DecayEngine.modify_decay
  exact threshold_policy_keep _ h0 h1

theorem sync_gt (g : Game1)
    (h : 1 < |Game1.calculate_grid_decay g.blocks -
      g.engine.decay_percentage|) :
    (Game1.sync_decay_with_grid g).engine =
      (g.engine.modify_decay ((Game1.calculate_grid_decay g.blocks -
        g.engine.decay_percentage) * (1/20))).1 := by
  unfold Game1.sync_decay_with_grid
  rw [if_pos h]

theorem sync_le (g : Game1)
    (h : |Game1.calculate_grid_decay g.blocks -
      g.engine.decay_percentage| ≤ 1) :
    Game1.sync_decay_with_grid g = g := by
  unfold Game1.sync_decay_with_grid
  rw [if_neg (not_lt.mpr h)]

theorem sync_blocks_eq (g : Game1) :
    (Game1.sync_decay_with_grid g).blocks = g.blocks := by
  simp only [Game1.sync_decay_with_grid]
  split_ifs <;> rfl

theorem sync_iter_blocks (g : Game1) (n : ℕ) :
    (Game1.sync_iter g n).blocks = g.blocks := by
  induction n generalizing g with
  | zero => rfl
  | succ n ih =>
    rw [Game1.sync_iter, ih, sync_blocks_eq]

theorem sync_iter_succ (g : Game1) (n : ℕ) :
    Game1.sync_iter g (n + 1) =
      Game1.sync_decay_with_grid (Game1.sync_iter g n) := by
  induction n generalizing g with
  | zero => rfl
  | succ n ih =>
    show Game1.sync_iter (Game1.sync_decay_with_grid g) (n + 1) =
      Game1.sync_decay_with_grid
        (Game1.sync_iter (Game1.sync_decay_with_grid g) n)
    exact ih _

theorem calculate_grid_decay_bounds (blocks : List Game1Block)
    (hb : ∀ b ∈ blocks, 0 ≤ b.decay_value ∧ b.decay_value ≤ 1) :
    0 ≤ Game1.calculate_grid_decay blocks ∧
      Game1.calculate_grid_decay blocks ≤ 100 := by
  unfold Game1.calculate_grid_decay
  split_ifs with h
  · norm_num
  · have hlen : 0 < (blocks.length : ℚ) := by
      have := List.length_pos.mpr h
      exact_mod_cast this
    have hsum0 : 0 ≤ (blocks.map Game1Block.decay_value).sum := by
      apply List.sum_nonneg
      intro x hx
      obtain ⟨b, hbmem, rfl⟩ := List.mem_map.mp hx
      exact (hb b hbmem).1
    have hsum1 : (blocks.map Game1Block.decay_value).sum ≤
        (blocks.length : ℚ) := by
      have hle := List.sum_le_card_nsmul (blocks.map Game1Block.decay_value) 1
        (by
          intro x hx
          obtain ⟨b, hbmem, rfl⟩ := List.mem_map.mp hx
          exact (hb b hbmem).2)
      simpa [List.length_map, nsmul_eq_mul] using hle
    have hd1 : (blocks.map Game1Block.decay_value).sum /
        (blocks.length : ℚ) ≤ 1 := (div_le_one hlen).mpr hsum1
    have hd0 : 0 ≤ (blocks.map Game1Block.decay_value).sum /
        (blocks.length : ℚ) := div_nonneg hsum0 hlen.le
    constructor <;> nlinarith

theorem sync_step_main (s : Game1)
    (h0 : 0 ≤ s.engine.decay_percentage)
    (h1 : s.engine.decay_percentage ≤ 100)
    (hH0 : 0 ≤ Game1.calculate_grid_decay s.blocks)
    (hH1 : Game1.calculate_grid_decay s.blocks ≤ 100) :
    (|Game1.calculate_grid_decay s.blocks - s.engine.decay_percentage| ≤ 1 ∧
      Game1.sync_decay_with_grid s = s) ∨
    (1 < |Game1.calculate_grid_decay s.blocks - s.engine.decay_percentage| ∧
      (Game1.sync_decay_with_grid s).engine.decay_percentage =
        s.engine.decay_percentage +
          (Game1.calculate_grid_decay s.blocks -
            s.engine.decay_percentage) * (1/20)) := by
  by_cases hc : 1 < |Game1.calculate_grid_decay s.blocks -
      s.engine.decay_percentage|
  · right
    refine ⟨hc, ?_⟩
    rw [sync_gt s hc]
    apply modify_decay_eq
    · rcases lt_abs.mp hc with h | h
      · intro hle
        linarith
      · intro hle
        linarith
    · rcases lt_abs.mp hc with h | h <;> linarith
  · left
    exact ⟨not_lt.mp hc, sync_le s (not_lt.mp hc)⟩

/-- C6: with the grid (hence its aggregate `H`) fixed and no decay in
between, repeated `sync_decay_with_grid` calls move the engine
monotonically toward `H` (the gap never grows; from below the percentage
rises but never overshoots, from above it falls but never undershoots);
after at most 90 calls the percentage is within the threshold 1.0 of `H`
and stays there; and once within the threshold every further call leaves
the percentage unchanged. -/
theorem c6_reconciliation_convergence (g : Game1)
    (hp0 : 0 ≤ g.engine.decay_percentage)
    (hp1 : g.engine.decay_percentage ≤ 100)
    (hb : ∀ b ∈ g.blocks, 0 ≤ b.decay_value ∧ b.decay_value ≤ 1) :
    (∀ n : ℕ,
      |Game1.calculate_grid_decay g.blocks -
          (Game1.sync_iter g (n + 1)).engine.decay_percentage| ≤
        |Game1.calculate_grid_decay g.blocks -
          (Game1.sync_iter g n).engine.decay_percentage| ∧
      ((Game1.sync_iter g n).engine.decay_percentage ≤
          Game1.calculate_grid_decay g.blocks →
        (Game1.sync_iter g n).engine.decay_percentage ≤
            (Game1.sync_iter g (n + 1)).engine.decay_percentage ∧
          (Game1.sync_iter g (n + 1)).engine.decay_percentage ≤
            Game1.calculate_grid_decay g.blocks) ∧
      (Game1.calculate_grid_decay g.blocks ≤
          (Game1.sync_iter g n).engine.decay_percentage →
        (Game1.sync_iter g (n + 1)).engine.decay_percentage ≤
            (Game1.sync_iter g n).engine.decay_percentage ∧
          Game1.calculate_grid_decay g.blocks ≤
            (Game1.sync_iter g (n + 1)).engine.decay_percentage)) ∧
    (∀ n : ℕ, 90 ≤ n →
      |Game1.calculate_grid_decay g.blocks -
          (Game1.sync_iter g n).engine.decay_percentage| ≤ 1) ∧
    (∀ n : ℕ,
      |Game1.calculate_grid_decay g.blocks -
          (Game1.sync_iter g n).engine.decay_percentage| ≤ 1 →
      (Game1.sync_iter g (n + 1)).engine.decay_percentage =
        (Game1.sync_iter g n).engine.decay_percentage) := by
  have hHb := calculate_grid_decay_bounds g.blocks hb
  have inv : ∀ n : ℕ,
      0 ≤ (Game1.sync_iter g n).engine.decay_percentage ∧
      (Game1.sync_iter g n).engine.decay_percentage ≤ 100 := by
    intro n
    induction n with
    | zero => exact ⟨hp0, hp1⟩
    | succ n ih =>
      obtain ⟨h0, h1⟩ := ih
      have hstep := sync_step_main (Game1.sync_iter g n) h0 h1
        (by rw [sync_iter_blocks]; exact hHb.1)
        (by rw [sync_iter_blocks]; exact hHb.2)
      rw [sync_iter_blocks] at hstep
      rcases hstep with ⟨hle, heq⟩ | ⟨hgt, heq⟩
      · rw [sync_iter_succ, heq]
        exact ⟨h0, h1⟩
      · rw [sync_iter_succ, heq]
        constructor <;> linarith [hHb.1, hHb.2]
  have step : ∀ n : ℕ,
      (|Game1.calculate_grid_decay g.blocks -
          (Game1.sync_iter g n).engine.decay_percentage| ≤ 1 ∧
        (Game1.sync_iter g (n + 1)).engine.decay_percentage =
          (Game1.sync_iter g n).engine.decay_percentage) ∨
      (1 < |Game1.calculate_grid_decay g.blocks -
          (Game1.sync_iter g n).engine.decay_percentage| ∧
        (Game1.sync_iter g (n + 1)).engine.decay_percentage =
          (Game1.sync_iter g n).engine.decay_percentage +
            (Game1.calculate_grid_decay g.blocks -
              (Game1.sync_iter g n).engine.decay_percentage) * (1/20)) := by
    intro n
    obtain ⟨h0, h1⟩ := inv n
    have hstep := sync_step_main (Game1.sync_iter g n) h0 h1
      (by rw [sync_iter_blocks]; exact hHb.1)
      (by rw [sync_iter_blocks]; exact hHb.2)
    rw [sync_iter_blocks] at hstep
    rcases hstep with ⟨hle, heq⟩ | ⟨hgt, heq⟩
    · left
      refine ⟨hle, ?_⟩
      rw [sync_iter_succ, heq]
    · right
      refine ⟨hgt, ?_⟩
      rw [sync_iter_succ]
      exact heq
  have partA : ∀ n : ℕ,
      |Game1.calculate_grid_decay g.blocks -
          (Game1.sync_iter g (n + 1)).engine.decay_percentage| ≤
        |Game1.calculate_grid_decay g.blocks -
          (Game1.sync_iter g n).engine.decay_percentage| ∧
      ((Game1.sync_iter g n).engine.decay_percentage ≤
          Game1.calculate_grid_decay g.blocks →
        (Game1.sync_iter g n).engine.decay_percentage ≤
            (Game1.sync_iter g (n + 1)).engine.decay_percentage ∧
          (Game1.sync_iter g (n + 1)).engine.decay_percentage ≤
            Game1.calculate_grid_decay g.blocks) ∧
      (Game1.calculate_grid_decay g.blocks ≤
          (Game1.sync_iter g n).engine.decay_percentage →
        (Game1.sync_iter g (n + 1)).engine.decay_percentage ≤
            (Game1.sync_iter g n).engine.decay_percentage ∧
          Game1.calculate_grid_decay g.blocks ≤
            (Game1.sync_iter g (n + 1)).engine.decay_percentage) := by
    intro n
    rcases step n with ⟨hle, heq⟩ | ⟨hgt, heq⟩
    · rw [heq]
      exact ⟨le_refl _, fun h => ⟨le_refl _, h⟩, fun h => ⟨le_refl _, h⟩⟩
    · rw [heq]
      have habs : Game1.calculate_grid_decay g.blocks -
          ((Game1.sync_iter g n).engine.decay_percentage +
            (Game1.calculate_grid_decay g.blocks -
              (Game1.sync_iter g n).engine.decay_percentage) * (1/20)) =
          (Game1.calculate_grid_decay g.blocks -
            (Game1.sync_iter g n).engine.decay_percentage) * (19/20) := by
        ring
      refine ⟨?_, fun h => ⟨by linarith, by linarith⟩,
        fun h => ⟨by linarith, by linarith⟩⟩
      rw [habs, abs_mul, abs_of_pos (by norm_num : (0:ℚ) < 19/20)]
      nlinarith [abs_nonneg (Game1.calculate_grid_decay g.blocks -
        (Game1.sync_iter g n).engine.decay_percentage)]
  have gap0 : |Game1.calculate_grid_decay g.blocks -
      (Game1.sync_iter g 0).engine.decay_percentage| ≤ 100 := by
    apply abs_le.mpr
    exact ⟨by linarith [hHb.1, hHb.2, (inv 0).1, (inv 0).2],
      by linarith [hHb.1, hHb.2, (inv 0).1, (inv 0).2]⟩
  have gapBound : ∀ n : ℕ,
      |Game1.calculate_grid_decay g.blocks -
          (Game1.sync_iter g n).engine.decay_percentage| ≤ 1 ∨
      |Game1.calculate_grid_decay g.blocks -
          (Game1.sync_iter g n).engine.decay_percentage| ≤
        (19/20 : ℚ)^n * |Game1.calculate_grid_decay g.blocks -
          (Game1.sync_iter g 0).engine.decay_percentage| := by
    intro n
    induction n with
    | zero =>
      right
      simp
    | succ n ih =>
      rcases step n with ⟨hle, heq⟩ | ⟨hgt, heq⟩
      · left
        rw [heq]
        exact hle
      · rcases ih with hih | hih
        · exact absurd hih (not_le.mpr hgt)
        · right
          rw [heq]
          have habs : Game1.calculate_grid_decay g.blocks -
              ((Game1.sync_iter g n).engine.decay_percentage +
                (Game1.calculate_grid_decay g.blocks -
                  (Game1.sync_iter g n).engine.decay_percentage) * (1/20)) =
              (Game1.calculate_grid_decay g.blocks -
                (Game1.sync_iter g n).engine.decay_percentage) * (19/20) := by
            ring
          rw [habs, abs_mul, abs_of_pos (by norm_num : (0:ℚ) < 19/20)]
          have h2 := mul_le_mul_of_nonneg_left hih
            (by norm_num : (0:ℚ) ≤ 19/20)
          calc |Game1.calculate_grid_decay g.blocks -
                (Game1.sync_iter g n).engine.decay_percentage| * (19/20)
              ≤ (19/20) * ((19/20 : ℚ)^n *
                |Game1.calculate_grid_decay g.blocks -
                  (Game1.sync_iter g 0).engine.decay_percentage|) := by
                linarith
            _ = (19/20 : ℚ)^(n+1) * |Game1.calculate_grid_decay g.blocks -
                (Game1.sync_iter g 0).engine.decay_percentage| := by
                ring
  have at90 : |Game1.calculate_grid_decay g.blocks -
      (Game1.sync_iter g 90).engine.decay_percentage| ≤ 1 := by
    rcases gapBound 90 with h | h
    · exact h
    · have hmul := mul_le_mul_of_nonneg_left gap0
        (by positivity : (0:ℚ) ≤ (19/20 : ℚ)^90)
      have hnum : ((19:ℚ)/20)^90 * 100 ≤ 1 := by norm_num
      linarith
  have partB : ∀ n : ℕ, 90 ≤ n →
      |Game1.calculate_grid_decay g.blocks -
          (Game1.sync_iter g n).engine.decay_percentage| ≤ 1 := by
    intro n hn
    induction n, hn using Nat.le_induction with
    | base => exact at90
    | succ n hn ih => exact le_trans (partA n).1 ih
  have partC : ∀ n : ℕ,
      |Game1.calculate_grid_decay g.blocks -
          (Game1.sync_iter g n).engine.decay_percentage| ≤ 1 →
      (Game1.sync_iter g (n + 1)).engine.decay_percentage =
        (Game1.sync_iter g n).engine.decay_percentage := by
    intro n hle
    have hid : Game1.sync_decay_with_grid (Game1.sync_iter g n) =
        Game1.sync_iter g n := by
      apply sync_le
      rw [sync_iter_blocks]
      exact hle
    rw [sync_iter_succ, hid]
  exact ⟨partA, partB, partC⟩

/-- Witness for C6 at a concrete input: one block at decay 0.9 (aggregate
10) against an engine at 50; after 90 reconciliations the engine is within
1.0 of 10, and a further call then leaves it unchanged. -/
theorem c6_witness :
    |Game1.calculate_grid_decay
        (⟨⟨50, 120, false⟩, [⟨9/10, 1/20, 5⟩], 0, 0⟩ : Game1).blocks -
      (Game1.sync_iter ⟨⟨50, 120, false⟩, [⟨9/10, 1/20, 5⟩], 0, 0⟩
        90).engine.decay_percentage| ≤ 1 :=
  (c6_reconciliation_convergence ⟨⟨50, 120, false⟩, [⟨9/10, 1/20, 5⟩], 0, 0⟩
    (by norm_num) (by norm_num)
    (by intro b hbm; simp at hbm; rw [hbm]; norm_num)).2.1 90 (le_refl 90)

/-- Witness for C9 at a concrete input: in WaitingForPlayer with expected
keys [S] already fully entered ([S]), a further W press is an immediate
wrong-answer outcome. -/
theorem c9_witness :
    ((⟨G3State.waiting_for_player, [(2, true)], [2], [2], 0, 1, 0, false⟩ :
      Game3).handle_key_press G3Key.w).1.state = G3State.showing_result ∧
    ((⟨G3State.waiting_for_player, [(2, true)], [2], [2], 0, 1, 0, false⟩ :
      Game3).handle_key_press G3Key.w).2 = wrong_decay_penalty :=
  c9_waiting_invariant.2.2
    ⟨G3State.waiting_for_player, [(2, true)], [2], [2], 0, 1, 0, false⟩
    G3Key.w 0 rfl rfl (le_refl 1)
